import Mathlib

/-!
Shallow embedding of the OpenAI Conversation Assistants integration
(three variants: `src/__init__.py`, `src/custom_components/openai_conversation_ass/__init__.py`,
`src/custom_components/openai_conversation_ass/conversation.py`),
together with theorems settling the spec claims.

Remote (provider) behaviour is modelled as an oracle: each remote call site
either succeeds with a value or raises a provider-level error
(`openai.OpenAIError`).  Executions are modelled as a trace of attempted
remote calls paired with either a final result, a raised exception, or
`none` when the run-polling loop consumed every modelled poll answer
without reaching a terminal status (i.e. the loop is still running).
-/

namespace OpenAIConv

/-- Roles as they occur in chat-log content and fetched thread messages. -/
inductive Role
  | user
  | assistant
  | system
  | developer
  deriving DecidableEq, Repr

/-- One segment of a fetched thread message's `content` list.  The code only
distinguishes `part.type == "text"` (whose `part.text.value` it reads) from
everything else; `imageFile` stands for any non-text segment. -/
inductive ContentPart
  | text (value : String)
  | imageFile (fileId : String)
  deriving DecidableEq, Repr

/-- A fetched thread message (`messages.data` element): `role`, `content`
and the creation timestamp that orders the thread chronologically. -/
structure Message where
  role : Role
  content : List ContentPart
  createdAt : Nat
  deriving DecidableEq, Repr

/-- `[part.text.value for part in msg.content if part.type == "text"]`:
the text-typed segments of a message, in their original order. -/
def textParts (m : Message) : List String :=
  m.content.filterMap fun p =>
    match p with
    | .text v => some v
    | .imageFile _ => none

/-- `next((m for m in reversed(messages.data) if m.role == "assistant"), None)`
(and the equivalent `for msg in reversed(messages.data): if msg.role == "assistant": ...; break`
of the conversation entity): the first assistant-authored entry of the
reversed fetched list. -/
def selectAssistant (msgs : List Message) : Option Message :=
  msgs.reverse.find? fun m => m.role == Role.assistant

/-- Run statuses of the fixed enumeration polled by the loop. -/
inductive RunStatus
  | queued
  | inProgress
  | completed
  | failed
  | cancelled
  | expired
  deriving DecidableEq, Repr

/-- `run.status in ["failed", "cancelled", "expired"]`. -/
def isFailureTerminal (s : RunStatus) : Bool :=
  s == RunStatus.failed || s == RunStatus.cancelled || s == RunStatus.expired

/-- Exception kinds that the handlers can raise or convert.
`openAI` is any provider-level `openai.OpenAIError`; `homeAssistant` is the
host's generic `HomeAssistantError`; `serviceValidation` is the host's
`ServiceValidationError`; `nameErr` is a Python `NameError` (unresolved
name, e.g. `asyncio` in `src/__init__.py`); `keyErr` is a Python `KeyError`
(missing dictionary key, e.g. `msg["content"]`). -/
inductive Exc
  | openAI
  | homeAssistant
  | serviceValidation
  | nameErr
  | keyErr
  deriving DecidableEq, Repr

/-- Remote calls attempted during an execution, in order. -/
inductive Ev
  | createThread
  | createMessage
  | createRun
  | retrieveRun
  | sleep
  | listMessages
  deriving DecidableEq, Repr

/-- Outcome of the run-polling loop over the modelled poll answers. -/
inductive PollResult
  | completed
  | failedRun (s : RunStatus)
  | provider
  | nameErr
  | exhausted
  deriving DecidableEq, Repr

/-- The poll loop shared by `custom_components/.../__init__.py::send_prompt`
and `conversation.py::_async_handle_chat_log`:

    while True:
        run = await client.beta.threads.runs.retrieve(...)
        if run.status == "completed": break
        elif run.status in ["failed", "cancelled", "expired"]:
            raise HomeAssistantError(...)
        await asyncio.sleep(1)

Each poll answer is either a provider error or a status.  When the list of
modelled answers runs out without a terminal status the outcome is
`exhausted`: the loop is still running. -/
def pollLoop : List (Except Unit RunStatus) → List Ev × PollResult
  | [] => ([], PollResult.exhausted)
  | r :: rest =>
    match r with
    | .error _ => ([Ev.retrieveRun], PollResult.provider)
    | .ok s =>
      if s == RunStatus.completed then ([Ev.retrieveRun], PollResult.completed)
      else if isFailureTerminal s then ([Ev.retrieveRun], PollResult.failedRun s)
      else
        let p := pollLoop rest
        (Ev.retrieveRun :: Ev.sleep :: p.1, p.2)

/-- The same loop as written in `src/__init__.py::send_prompt`.  That module
never imports `asyncio`, so on the first non-terminal status the statement
`await asyncio.sleep(1)` raises a `NameError` instead of sleeping. -/
def pollLoopSrc : List (Except Unit RunStatus) → List Ev × PollResult
  | [] => ([], PollResult.exhausted)
  | r :: _ =>
    match r with
    | .error _ => ([Ev.retrieveRun], PollResult.provider)
    | .ok s =>
      if s == RunStatus.completed then ([Ev.retrieveRun], PollResult.completed)
      else if isFailureTerminal s then ([Ev.retrieveRun], PollResult.failedRun s)
      else ([Ev.retrieveRun], PollResult.nameErr)

/-- Modelled from the spec: the integration's domain constant lives in the
missing `const.py` (`from .const import DOMAIN`).  Only identity comparison
with a config entry's `domain` is ever performed, so its exact value is
irrelevant; the directory name is used. -/
def DOMAIN : String := "openai_conversation_ass"

/-- The parts of a config entry the handlers read: its integration `domain`
(compared against `DOMAIN`) and `entry.data.get(CONF_ASSISTANT_ID)`
(`none` models an absent key). -/
structure ConfigEntry where
  domain : String
  assistantId : Option String
  deriving DecidableEq, Repr

/-- Oracle for the remote provider: the result of each remote call site.
`polls` is the sequence of answers to successive `runs.retrieve` calls;
`createMessage` is the uniform answer to each `messages.create`. -/
structure Remote where
  createThread : Except Unit Unit
  createMessage : Except Unit Unit
  createRun : Except Unit Unit
  polls : List (Except Unit RunStatus)
  listMessages : Except Unit (List Message)

/-- The service response `{"text": ...}`. -/
structure SPResponse where
  text : String
  deriving DecidableEq, Repr

/-- An execution's outcome: trace of attempted remote calls, and either a
final `Except` (raised exception or returned value) or `none` when the poll
loop is still running after every modelled poll answer. -/
abbrev Outcome (α : Type) := List Ev × Option (Except Exc α)

/-- `except Exception as err: raise HomeAssistantError(...) from err`
(`custom_components/.../__init__.py::send_prompt`): every exception of the
body becomes a `HomeAssistantError`. -/
def catchAllToHA {α : Type} : Except Exc α → Except Exc α
  | .ok v => .ok v
  | .error _ => .error Exc.homeAssistant

/-- `except openai.OpenAIError as err: raise HomeAssistantError(...) from err`:
only provider-level errors are converted; every other exception propagates
unchanged. -/
def catchOpenAIToHA {α : Type} : Except Exc α → Except Exc α
  | .error Exc.openAI => .error Exc.homeAssistant
  | r => r

/-- Post-completion message processing of the two service variants
(`src/__init__.py` lines 150-159 and `custom_components/.../__init__.py`
lines 118-126, identical up to variable names):

    messages = await client.beta.threads.messages.list(...)
    last = next((m for m in reversed(messages.data) if m.role == "assistant"), None)
    if not last or not last.content:
        raise HomeAssistantError(...)
    return {"text": "\n".join(part.text.value for part in last.content if part.type == "text")}
-/
def serviceReplyOfMessages (msgs : List Message) : Except Exc SPResponse :=
  match selectAssistant msgs with
  | none => .error Exc.homeAssistant
  | some last =>
    if last.content.isEmpty then .error Exc.homeAssistant
    else .ok ⟨String.intercalate "\n" (textParts last)⟩

/-- Post-completion message processing of the conversation entity
(`conversation.py` lines 204-210):

    for msg in reversed(messages.data):
        if msg.role == "assistant":
            response_content = "".join(part.text.value for part in msg.content if part.type == "text")
            chat_log.async_add_ai_message(response_content)
            break

`some t` means an AI message with text `t` was added to the chat log;
`none` means the loop fell through without adding anything. -/
def entityReplyOfMessages (msgs : List Message) : Option String :=
  (selectAssistant msgs).map fun m => String.join (textParts m)

/-- Body of the `try:` block of
`custom_components/.../__init__.py::send_prompt`: create thread, post the
prompt as one user message, create the run, poll with `pollLoop`, then on
completion fetch the message list and build the reply. -/
def sendBodyCC (beh : Remote) : Outcome SPResponse :=
  match beh.createThread with
  | .error _ => ([Ev.createThread], some (.error Exc.openAI))
  | .ok _ =>
    match beh.createMessage with
    | .error _ => ([Ev.createThread, Ev.createMessage], some (.error Exc.openAI))
    | .ok _ =>
      match beh.createRun with
      | .error _ =>
        ([Ev.createThread, Ev.createMessage, Ev.createRun], some (.error Exc.openAI))
      | .ok _ =>
        let pre := [Ev.createThread, Ev.createMessage, Ev.createRun]
        let p := pollLoop beh.polls
        match p.2 with
        | .exhausted => (pre ++ p.1, none)
        | .provider => (pre ++ p.1, some (.error Exc.openAI))
        | .nameErr => (pre ++ p.1, some (.error Exc.nameErr))
        | .failedRun _ => (pre ++ p.1, some (.error Exc.homeAssistant))
        | .completed =>
          match beh.listMessages with
          | .error _ => (pre ++ p.1 ++ [Ev.listMessages], some (.error Exc.openAI))
          | .ok msgs =>
            (pre ++ p.1 ++ [Ev.listMessages], some (serviceReplyOfMessages msgs))

/-- Body of the `try:` block of `src/__init__.py::send_prompt`: identical to
`sendBodyCC` except that the poll loop is `pollLoopSrc` (that module never
imports `asyncio`, so a non-terminal status raises `NameError`). -/
def sendBodySrc (beh : Remote) : Outcome SPResponse :=
  match beh.createThread with
  | .error _ => ([Ev.createThread], some (.error Exc.openAI))
  | .ok _ =>
    match beh.createMessage with
    | .error _ => ([Ev.createThread, Ev.createMessage], some (.error Exc.openAI))
    | .ok _ =>
      match beh.createRun with
      | .error _ =>
        ([Ev.createThread, Ev.createMessage, Ev.createRun], some (.error Exc.openAI))
      | .ok _ =>
        let pre := [Ev.createThread, Ev.createMessage, Ev.createRun]
        let p := pollLoopSrc beh.polls
        match p.2 with
        | .exhausted => (pre ++ p.1, none)
        | .provider => (pre ++ p.1, some (.error Exc.openAI))
        | .nameErr => (pre ++ p.1, some (.error Exc.nameErr))
        | .failedRun _ => (pre ++ p.1, some (.error Exc.homeAssistant))
        | .completed =>
          match beh.listMessages with
          | .error _ => (pre ++ p.1 ++ [Ev.listMessages], some (.error Exc.openAI))
          | .ok msgs =>
            (pre ++ p.1 ++ [Ev.listMessages], some (serviceReplyOfMessages msgs))

/-- Applies an exception-handler conversion to an outcome's result,
leaving the trace as is. -/
def wrapOutcome {α : Type} (f : Except Exc α → Except Exc α) (o : Outcome α) :
    Outcome α :=
  (o.1, o.2.map f)

/-- `if not assistant_id:` — Python falsiness of
`entry.data.get(CONF_ASSISTANT_ID)`: absent key or empty string. -/
def assistantIdMissing : Option String → Bool
  | none => true
  | some a => a == ""

/-- `custom_components/.../__init__.py::send_prompt`: config-entry lookup and
domain check (`ServiceValidationError` on failure), assistant-id check
(`HomeAssistantError` when falsy), then the `try:` body with
`except Exception` converting every exception to `HomeAssistantError`. -/
def sendPromptCC (entry : Option ConfigEntry) (beh : Remote) : Outcome SPResponse :=
  match entry with
  | none => ([], some (.error Exc.serviceValidation))
  | some e =>
    if e.domain ≠ DOMAIN then ([], some (.error Exc.serviceValidation))
    else if assistantIdMissing e.assistantId then ([], some (.error Exc.homeAssistant))
    else wrapOutcome catchAllToHA (sendBodyCC beh)

/-- `src/__init__.py::send_prompt`: same validation as `sendPromptCC`, then
the `try:` body with `except openai.OpenAIError` as the only handler, so
only provider-level errors are converted to `HomeAssistantError`. -/
def sendPromptSrc (entry : Option ConfigEntry) (beh : Remote) : Outcome SPResponse :=
  match entry with
  | none => ([], some (.error Exc.serviceValidation))
  | some e =>
    if e.domain ≠ DOMAIN then ([], some (.error Exc.serviceValidation))
    else if assistantIdMissing e.assistantId then ([], some (.error Exc.homeAssistant))
    else wrapOutcome catchOpenAIToHA (sendBodySrc beh)

/-- One element of `ImagesResponse.data`: its `url` and `b64_json` can each
be absent, plus the remaining descriptor field (`revised_prompt`). -/
structure ImageData where
  url : Option String
  b64Json : Option String
  revisedPrompt : Option String
  deriving DecidableEq, Repr

/-- The provider's image response: its list of generated images
(`None` and `[]` are both modelled as the empty list, being equally falsy). -/
structure ImagesResponse where
  data : List ImageData
  deriving DecidableEq, Repr

/-- `response.data[0].model_dump(exclude={"b64_json"})`: the first image's
descriptor with the inline-data field removed and all other fields kept. -/
structure ImageOut where
  url : Option String
  revisedPrompt : Option String
  deriving DecidableEq, Repr

/-- Python truthiness of `response.data[0].url`: `None` and `""` are falsy. -/
def hasUrl : Option String → Bool
  | none => false
  | some s => !(s == "")

/-- `render_image` (identical in `src/__init__.py` and
`custom_components/.../__init__.py`): config-entry validation
(`ServiceValidationError`), one `images.generate` call whose provider error
is re-raised as `HomeAssistantError`, then
`if not response.data or not response.data[0].url: raise HomeAssistantError("No image returned")`,
else return the first descriptor minus `b64_json`. -/
def render_image (entry : Option ConfigEntry)
    (gen : Except Unit ImagesResponse) : Except Exc ImageOut :=
  match entry with
  | none => .error Exc.serviceValidation
  | some e =>
    if e.domain ≠ DOMAIN then .error Exc.serviceValidation
    else
      match gen with
      | .error _ => .error Exc.homeAssistant
      | .ok resp =>
        match resp.data with
        | [] => .error Exc.homeAssistant
        | img :: _ =>
          if hasUrl img.url then .ok ⟨img.url, img.revisedPrompt⟩
          else .error Exc.homeAssistant

/-- A tool call recorded on an assistant chat-log entry
(`ToolInput`: `id`, `tool_name`, `tool_args`; the arguments are modelled
already serialised, as `json.dumps` produces them). -/
structure ToolCall where
  id : String
  toolName : String
  toolArgs : String
  deriving DecidableEq, Repr

/-- Chat-log content (`conversation.Content`): user, system and assistant
turns carry text (`none` models an assistant turn whose `content` is
`None`); a tool-result turn carries the tool call id and the serialised
result. -/
inductive Content
  | userC (content : String)
  | systemC (content : String)
  | assistantC (content : Option String) (toolCalls : List ToolCall)
  | toolResultC (toolCallId : String) (toolResult : String)
  deriving DecidableEq, Repr

/-- A provider message parameter produced by `_convert_content_to_param`.
`message` is an `EasyInputMessageParam` (a dict with a `content` key);
`functionCall` is a `ResponseFunctionToolCallParam` and
`functionCallOutput` a `FunctionCallOutput`, neither of which has a
`content` key. -/
inductive Param
  | message (role : Role) (content : String)
  | functionCall (name : String) (arguments : String) (callId : String)
  | functionCallOutput (callId : String) (output : String)
  deriving DecidableEq, Repr

/-- `conversation.py::_convert_content_to_param`: a tool result becomes one
`FunctionCallOutput`; otherwise a truthy `content.content` becomes one
message param with the content's role (`system` mapped to `developer`), and
an assistant content's tool calls append one function-call param each. -/
def _convert_content_to_param : Content → List Param
  | .toolResultC cid res => [Param.functionCallOutput cid res]
  | .userC c => if c == "" then [] else [Param.message Role.user c]
  | .systemC c => if c == "" then [] else [Param.message Role.developer c]
  | .assistantC c tcs =>
    (match c with
     | none => []
     | some s => if s == "" then [] else [Param.message Role.assistant s]) ++
    tcs.map fun tc => Param.functionCall tc.toolName tc.toolArgs tc.id

/-- The `msg["content"]` dictionary lookup performed at posting time: only
message params carry a `content` key; on the others the lookup raises
`KeyError`. -/
def contentField : Param → Option String
  | .message _ c => some c
  | .functionCall _ _ _ => none
  | .functionCallOutput _ _ => none

/-- A message as posted to the remote thread. -/
structure Posted where
  role : Role
  content : String
  deriving DecidableEq, Repr

/-- The posting loop of `conversation.py::_async_handle_chat_log`
(lines 183-188): for each param,
`await client.beta.threads.messages.create(thread_id=..., role="user", content=msg["content"])`.
The `content` lookup happens while building the call's arguments, so a
param without that key raises `KeyError` before any remote call; every
message actually posted has role `"user"`.  (The `isinstance(msg, list)`
branch is dead: the flattened param list contains only dicts.) -/
def postParams (beh : Remote) : List Param → List Ev × Except Exc (List Posted)
  | [] => ([], .ok [])
  | p :: rest =>
    match contentField p with
    | none => ([], .error Exc.keyErr)
    | some c =>
      match beh.createMessage with
      | .error _ => ([Ev.createMessage], .error Exc.openAI)
      | .ok _ =>
        let r := postParams beh rest
        (Ev.createMessage :: r.1, r.2.map fun l => ⟨Role.user, c⟩ :: l)

/-- Body of the `try:` block of
`conversation.py::_async_handle_chat_log`: create thread, post every
converted chat-log param (role always `"user"`), create the run, poll with
`pollLoop`, then on completion fetch the messages and add the newest
assistant message's concatenated text to the chat log. -/
def entityBody (params : List Param) (beh : Remote) : Outcome (Option String) :=
  match beh.createThread with
  | .error _ => ([Ev.createThread], some (.error Exc.openAI))
  | .ok _ =>
    let pr := postParams beh params
    match pr.2 with
    | .error e => (Ev.createThread :: pr.1, some (.error e))
    | .ok _ =>
      match beh.createRun with
      | .error _ =>
        (Ev.createThread :: pr.1 ++ [Ev.createRun], some (.error Exc.openAI))
      | .ok _ =>
        let pre := Ev.createThread :: pr.1 ++ [Ev.createRun]
        let p := pollLoop beh.polls
        match p.2 with
        | .exhausted => (pre ++ p.1, none)
        | .provider => (pre ++ p.1, some (.error Exc.openAI))
        | .nameErr => (pre ++ p.1, some (.error Exc.nameErr))
        | .failedRun _ => (pre ++ p.1, some (.error Exc.homeAssistant))
        | .completed =>
          match beh.listMessages with
          | .error _ => (pre ++ p.1 ++ [Ev.listMessages], some (.error Exc.openAI))
          | .ok msgs =>
            (pre ++ p.1 ++ [Ev.listMessages], some (.ok (entityReplyOfMessages msgs)))

/-- `conversation.py::_async_handle_chat_log`: convert the chat log locally,
check the assistant id (`HomeAssistantError` when falsy, before any remote
call), then the `try:` body with `except openai.OpenAIError` as the only
handler.  `some t` in the result means an AI message with text `t` was
added to the chat log. -/
def handleChatLog (assistantId : Option String) (chatLog : List Content)
    (beh : Remote) : Outcome (Option String) :=
  let params := chatLog.flatMap _convert_content_to_param
  if assistantIdMissing assistantId then ([], some (.error Exc.homeAssistant))
  else wrapOutcome catchOpenAIToHA (entityBody params beh)

/-- A status on which the poll loop keeps going: neither `"completed"` nor
in `["failed", "cancelled", "expired"]`. -/
def isNonTerminal (s : RunStatus) : Bool :=
  !(s == RunStatus.completed) && !(isFailureTerminal s)

lemma exists_find_reverse {α : Type} (p : α → Bool) (l : List α)
    (h : ∃ x ∈ l, p x = true) :
    ∃ pre m post, l = pre ++ m :: post ∧ p m = true ∧
      (∀ x ∈ post, p x = false) ∧ l.reverse.find? p = some m := by
  induction l using List.reverseRecOn with
  | nil => simp at h
  | append_singleton as a ih =>
    rcases h with ⟨x, hx, hpx⟩
    by_cases hpa : p a = true
    · refine ⟨as, a, [], by simp, hpa, by simp, ?_⟩
      simp [List.find?_cons_of_pos, hpa]
    · have hxas : x ∈ as := by
        rcases List.mem_append.1 hx with h1 | h1
        · exact h1
        · simp only [List.mem_singleton] at h1
          exact absurd (h1 ▸ hpx) hpa
      rcases ih ⟨x, hxas, hpx⟩ with ⟨pre, m, post, hsplit, hpm, hpost, hfind⟩
      refine ⟨pre, m, post ++ [a], by simp [hsplit], hpm, ?_, ?_⟩
      · intro y hy
        rcases List.mem_append.1 hy with h1 | h1
        · exact hpost y h1
        · simp only [List.mem_singleton] at h1
          subst h1
          exact eq_false_of_ne_true hpa
      · have : (as ++ [a]).reverse = a :: as.reverse := by simp
        rw [this, List.find?_cons_of_neg _ (by simp [hpa]), hfind]

/-- C2: for a non-empty fetched message list containing an assistant entry,
the selected message is the first assistant-authored entry when the list is
scanned in reverse: it splits the list as `pre ++ m :: post` with no
assistant entry in `post`, and when the fetched list is chronologically
ordered by `created_at` it is the newest assistant-authored message. -/
theorem claim_C2_newest_assistant (msgs : List Message) (hne : msgs ≠ [])
    (hex : ∃ m ∈ msgs, m.role = Role.assistant) :
    ∃ pre m post, msgs = pre ++ m :: post ∧
      selectAssistant msgs = some m ∧ m.role = Role.assistant ∧
      (∀ m' ∈ post, m'.role ≠ Role.assistant) ∧
      (msgs.Pairwise (fun a b => a.createdAt ≤ b.createdAt) →
        ∀ m' ∈ msgs, m'.role = Role.assistant → m'.createdAt ≤ m.createdAt) := by
  have hex' : ∃ m ∈ msgs, (fun m : Message => m.role == Role.assistant) m = true := by
    rcases hex with ⟨m, hm, hr⟩
    exact ⟨m, hm, by simp [hr]⟩
  rcases exists_find_reverse _ msgs hex' with ⟨pre, m, post, hsplit, hpm, hpost, hfind⟩
  refine ⟨pre, m, post, hsplit, hfind, by simpa using hpm, ?_, ?_⟩
  · intro m' hm'
    have := hpost m' hm'
    simpa using this
  · intro hsort m' hm' hr'
    rw [hsplit] at hsort hm'
    rcases List.mem_append.1 hm' with h1 | h1
    · have h2 := (List.pairwise_append.1 hsort).2.2
      exact h2 m' h1 m (List.mem_cons_self m post)
    · rcases List.mem_cons.1 h1 with h2 | h2
      · exact h2 ▸ le_refl _
      · have := hpost m' h2
        simp [hr'] at this

/-- Witness for C2 at a concrete two-message list (user turn then assistant
turn). -/
theorem claim_C2_newest_assistant_witness :
    ∃ pre m post,
      [Message.mk Role.user [ContentPart.text "hi"] 0,
       Message.mk Role.assistant [ContentPart.text "hello"] 1] = pre ++ m :: post ∧
      selectAssistant
        [Message.mk Role.user [ContentPart.text "hi"] 0,
         Message.mk Role.assistant [ContentPart.text "hello"] 1] = some m ∧
      m.role = Role.assistant ∧
      (∀ m' ∈ post, m'.role ≠ Role.assistant) ∧
      ([Message.mk Role.user [ContentPart.text "hi"] 0,
        Message.mk Role.assistant [ContentPart.text "hello"] 1].Pairwise
          (fun a b => a.createdAt ≤ b.createdAt) →
        ∀ m' ∈ [Message.mk Role.user [ContentPart.text "hi"] 0,
                Message.mk Role.assistant [ContentPart.text "hello"] 1],
          m'.role = Role.assistant → m'.createdAt ≤ m.createdAt) :=
  claim_C2_newest_assistant _ (by decide)
    ⟨Message.mk Role.assistant [ContentPart.text "hello"] 1, by simp, rfl⟩

lemma pollLoop_nonterminal (ss : List RunStatus)
    (h : ∀ t ∈ ss, isNonTerminal t = true) :
    pollLoop (ss.map Except.ok) =
      (ss.flatMap fun _ => [Ev.retrieveRun, Ev.sleep], PollResult.exhausted) := by
  induction ss with
  | nil => rfl
  | cons t ts ih =>
    have ht := h t (List.mem_cons_self t ts)
    simp only [isNonTerminal, Bool.and_eq_true, Bool.not_eq_true'] at ht
    have ih' := ih fun x hx => h x (List.mem_cons_of_mem t hx)
    simp [pollLoop, ht.1, ht.2, ih']

lemma pollLoop_failed (pre : List RunStatus) (s : RunStatus)
    (rest : List (Except Unit RunStatus))
    (hpre : ∀ t ∈ pre, isNonTerminal t = true) (hs : isFailureTerminal s = true) :
    pollLoop (pre.map Except.ok ++ Except.ok s :: rest) =
      ((pre.flatMap fun _ => [Ev.retrieveRun, Ev.sleep]) ++ [Ev.retrieveRun],
        PollResult.failedRun s) := by
  induction pre with
  | nil =>
    have hne : (s == RunStatus.completed) = false := by
      cases s <;> simp_all [isFailureTerminal]
    simp [pollLoop, hne, hs]
  | cons t ts ih =>
    have ht := hpre t (List.mem_cons_self t ts)
    simp only [isNonTerminal, Bool.and_eq_true, Bool.not_eq_true'] at ht
    have ih' := ih fun x hx => hpre x (List.mem_cons_of_mem t hx)
    simp [pollLoop, ht.1, ht.2, ih']

lemma pollLoop_completed (pre : List RunStatus)
    (rest : List (Except Unit RunStatus))
    (hpre : ∀ t ∈ pre, isNonTerminal t = true) :
    pollLoop (pre.map Except.ok ++ Except.ok RunStatus.completed :: rest) =
      ((pre.flatMap fun _ => [Ev.retrieveRun, Ev.sleep]) ++ [Ev.retrieveRun],
        PollResult.completed) := by
  induction pre with
  | nil => simp [pollLoop]
  | cons t ts ih =>
    have ht := hpre t (List.mem_cons_self t ts)
    simp only [isNonTerminal, Bool.and_eq_true, Bool.not_eq_true'] at ht
    have ih' := ih fun x hx => hpre x (List.mem_cons_of_mem t hx)
    simp [pollLoop, ht.1, ht.2, ih']

lemma pollLoopSrc_failed (s : RunStatus) (rest : List (Except Unit RunStatus))
    (hs : isFailureTerminal s = true) :
    pollLoopSrc (Except.ok s :: rest) = ([Ev.retrieveRun], PollResult.failedRun s) := by
  have hne : (s == RunStatus.completed) = false := by
    cases s <;> simp_all [isFailureTerminal]
  simp [pollLoopSrc, hne, hs]

lemma pollLoopSrc_nameErr (t : RunStatus) (rest : List (Except Unit RunStatus))
    (ht : isNonTerminal t = true) :
    pollLoopSrc (Except.ok t :: rest) = ([Ev.retrieveRun], PollResult.nameErr) := by
  simp only [isNonTerminal, Bool.and_eq_true, Bool.not_eq_true'] at ht
  simp [pollLoopSrc, ht.1, ht.2]

/-- C5: the run-polling loop has no iteration bound.  For every infinite
status sequence whose polls all answer a non-terminal status (neither
`"completed"` nor in `{failed, cancelled, expired}`), processing any finite
number `n` of poll answers leaves the loop still running (`exhausted`):
no bound makes it terminate. -/
theorem claim_C5_poll_loop_unbounded (σ : Nat → RunStatus)
    (h : ∀ n, σ n ≠ RunStatus.completed ∧ isFailureTerminal (σ n) = false)
    (n : Nat) :
    (pollLoop (((List.range n).map σ).map Except.ok)).2 = PollResult.exhausted := by
  have hall : ∀ t ∈ (List.range n).map σ, isNonTerminal t = true := by
    intro t ht
    rcases List.mem_map.1 ht with ⟨i, _, rfl⟩
    have := h i
    simp [isNonTerminal, this.1, this.2]
  rw [pollLoop_nonterminal _ hall]

/-- Witness for C5: a sequence that stays `"queued"` forever, observed for
5 polls. -/
theorem claim_C5_poll_loop_unbounded_witness :
    (pollLoop (((List.range 5).map fun _ => RunStatus.queued).map Except.ok)).2 =
      PollResult.exhausted :=
  claim_C5_poll_loop_unbounded (fun _ => RunStatus.queued)
    (fun _ => ⟨fun h => RunStatus.noConfusion h, rfl⟩) 5

/-- C4: with a valid config entry whose assistant id is absent or empty,
each of the three handlers raises a `HomeAssistantError` with an empty
remote-call trace: no thread creation, message posting, run creation or
polling is attempted. -/
theorem claim_C4_missing_assistant_id (e : ConfigEntry) (beh : Remote)
    (chatLog : List Content) (hdom : e.domain = DOMAIN)
    (hmiss : e.assistantId = none ∨ e.assistantId = some "") :
    sendPromptCC (some e) beh = ([], some (.error Exc.homeAssistant)) ∧
    sendPromptSrc (some e) beh = ([], some (.error Exc.homeAssistant)) ∧
    handleChatLog e.assistantId chatLog beh = ([], some (.error Exc.homeAssistant)) := by
  have hm : assistantIdMissing e.assistantId = true := by
    rcases hmiss with h | h <;> simp [assistantIdMissing, h]
  refine ⟨?_, ?_, ?_⟩ <;> simp [sendPromptCC, sendPromptSrc, handleChatLog, hdom, hm]

/-- Witness for C4 at a concrete entry with an empty assistant id. -/
theorem claim_C4_missing_assistant_id_witness :
    sendPromptCC (some ⟨DOMAIN, some ""⟩)
        ⟨.ok (), .ok (), .ok (), [], .ok []⟩ =
      ([], some (.error Exc.homeAssistant)) ∧
    sendPromptSrc (some ⟨DOMAIN, some ""⟩)
        ⟨.ok (), .ok (), .ok (), [], .ok []⟩ =
      ([], some (.error Exc.homeAssistant)) ∧
    handleChatLog (some "") [Content.userC "hi"]
        ⟨.ok (), .ok (), .ok (), [], .ok []⟩ =
      ([], some (.error Exc.homeAssistant)) :=
  claim_C4_missing_assistant_id ⟨DOMAIN, some ""⟩ _ [Content.userC "hi"] rfl
    (Or.inr rfl)

lemma postParams_all_content_ok (beh : Remote) (hcm : beh.createMessage = .ok ()) :
    ∀ ps : List Param, (∀ p ∈ ps, (contentField p).isSome = true) →
      ∃ l, postParams beh ps = (ps.map fun _ => Ev.createMessage, Except.ok l) := by
  intro ps
  induction ps with
  | nil => exact fun _ => ⟨[], rfl⟩
  | cons p rest ih =>
    intro h
    have hp := h p (List.mem_cons_self p rest)
    rcases Option.isSome_iff_exists.1 hp with ⟨c, hc⟩
    rcases ih (fun x hx => h x (List.mem_cons_of_mem p hx)) with ⟨l, hl⟩
    refine ⟨⟨Role.user, c⟩ :: l, ?_⟩
    simp [postParams, hc, hcm, hl, Except.map]

/-- C3: once the handlers reach the poll loop and the run status becomes one
of `{failed, cancelled, expired}` after only non-terminal statuses, every
handler raises (`HomeAssistantError` in the two variants that import
`asyncio`; some exception in `src/__init__.py`, see C10) and the
message-list fetch is never attempted in that execution. -/
theorem claim_C3_failure_before_fetch (e : ConfigEntry) (beh : Remote)
    (pre : List RunStatus) (s : RunStatus) (rest : List (Except Unit RunStatus))
    (chatLog : List Content) (hdom : e.domain = DOMAIN)
    (hass : assistantIdMissing e.assistantId = false)
    (hct : beh.createThread = .ok ()) (hcm : beh.createMessage = .ok ())
    (hcr : beh.createRun = .ok ())
    (hpolls : beh.polls = pre.map Except.ok ++ Except.ok s :: rest)
    (hpre : ∀ t ∈ pre, isNonTerminal t = true) (hs : isFailureTerminal s = true)
    (hparams : ∀ p ∈ chatLog.flatMap _convert_content_to_param,
      (contentField p).isSome = true) :
    ((sendPromptCC (some e) beh).2 = some (.error Exc.homeAssistant) ∧
      Ev.listMessages ∉ (sendPromptCC (some e) beh).1) ∧
    ((handleChatLog e.assistantId chatLog beh).2 = some (.error Exc.homeAssistant) ∧
      Ev.listMessages ∉ (handleChatLog e.assistantId chatLog beh).1) ∧
    ((∃ err, (sendPromptSrc (some e) beh).2 = some (.error err)) ∧
      Ev.listMessages ∉ (sendPromptSrc (some e) beh).1) := by
  have hpoll := pollLoop_failed pre s rest hpre hs
  refine ⟨?_, ?_, ?_⟩
  · constructor <;>
      simp [sendPromptCC, hdom, hass, wrapOutcome, sendBodyCC, hct, hcm, hcr,
        hpolls, hpoll, catchAllToHA, List.mem_flatMap]
  · rcases postParams_all_content_ok beh hcm _ hparams with ⟨l, hl⟩
    constructor <;>
      simp [handleChatLog, hass, wrapOutcome, entityBody, hct, hl, hcr,
        hpolls, hpoll, catchOpenAIToHA, List.mem_flatMap, List.mem_map]
  · cases pre with
    | nil =>
      have hp := pollLoopSrc_failed s rest hs
      simp only [List.map_nil, List.nil_append] at hpolls
      constructor
      · exact ⟨Exc.homeAssistant, by
          simp [sendPromptSrc, hdom, hass, wrapOutcome, sendBodySrc, hct, hcm,
            hcr, hpolls, hp, catchOpenAIToHA]⟩
      · simp [sendPromptSrc, hdom, hass, wrapOutcome, sendBodySrc, hct, hcm,
          hcr, hpolls, hp]
    | cons t ts =>
      have ht := hpre t (List.mem_cons_self t ts)
      have hp := pollLoopSrc_nameErr t (ts.map Except.ok ++ Except.ok s :: rest) ht
      simp only [List.map_cons, List.cons_append] at hpolls
      constructor
      · exact ⟨Exc.nameErr, by
          simp [sendPromptSrc, hdom, hass, wrapOutcome, sendBodySrc, hct, hcm,
            hcr, hpolls, hp, catchOpenAIToHA]⟩
      · simp [sendPromptSrc, hdom, hass, wrapOutcome, sendBodySrc, hct, hcm,
          hcr, hpolls, hp]

/-- Witness for C3: one `in_progress` poll followed by a `failed` poll, on a
one-message chat log. -/
theorem claim_C3_failure_before_fetch_witness :
    ((sendPromptCC (some ⟨DOMAIN, some "asst"⟩)
        ⟨.ok (), .ok (), .ok (),
          [.ok RunStatus.inProgress, .ok RunStatus.failed], .ok []⟩).2 =
        some (.error Exc.homeAssistant) ∧
      Ev.listMessages ∉ (sendPromptCC (some ⟨DOMAIN, some "asst"⟩)
        ⟨.ok (), .ok (), .ok (),
          [.ok RunStatus.inProgress, .ok RunStatus.failed], .ok []⟩).1) ∧
    ((handleChatLog (some "asst") [Content.userC "hi"]
        ⟨.ok (), .ok (), .ok (),
          [.ok RunStatus.inProgress, .ok RunStatus.failed], .ok []⟩).2 =
        some (.error Exc.homeAssistant) ∧
      Ev.listMessages ∉ (handleChatLog (some "asst") [Content.userC "hi"]
        ⟨.ok (), .ok (), .ok (),
          [.ok RunStatus.inProgress, .ok RunStatus.failed], .ok []⟩).1) ∧
    ((∃ err, (sendPromptSrc (some ⟨DOMAIN, some "asst"⟩)
        ⟨.ok (), .ok (), .ok (),
          [.ok RunStatus.inProgress, .ok RunStatus.failed], .ok []⟩).2 =
        some (.error err)) ∧
      Ev.listMessages ∉ (sendPromptSrc (some ⟨DOMAIN, some "asst"⟩)
        ⟨.ok (), .ok (), .ok (),
          [.ok RunStatus.inProgress, .ok RunStatus.failed], .ok []⟩).1) :=
  claim_C3_failure_before_fetch ⟨DOMAIN, some "asst"⟩
    ⟨.ok (), .ok (), .ok (), [.ok RunStatus.inProgress, .ok RunStatus.failed], .ok []⟩
    [RunStatus.inProgress] RunStatus.failed [] [Content.userC "hi"]
    rfl (by decide) rfl rfl rfl rfl (by decide) rfl (by decide)

/-- C1 counterexample: a completed run whose latest assistant message has
two text segments `"a"` and `"b"`.  The service returns `"a\nb"` under
`"text"` (the segments joined with newline separators), which is not the
concatenation `"ab"` of the text-typed segments. -/
theorem claim_C1_counterexample :
    (sendPromptCC (some ⟨DOMAIN, some "asst"⟩)
      ⟨.ok (), .ok (), .ok (), [.ok RunStatus.completed],
        .ok [⟨Role.assistant, [ContentPart.text "a", ContentPart.text "b"], 0⟩]⟩).2 =
      some (.ok ⟨"a\nb"⟩) ∧
    String.join (textParts
      ⟨Role.assistant, [ContentPart.text "a", ContentPart.text "b"], 0⟩) = "ab" ∧
    ("a\nb" : String) ≠ "ab" :=
  ⟨rfl, rfl, by decide⟩

/-- C1 amended: for every run reaching status `"completed"`, the assistant
service returns under key `"text"` the text-typed segments of the latest
assistant message, in their original order with non-text segments omitted,
joined with newline (`"\n"`) separators. -/
theorem claim_C1_amended_completed_reply (e : ConfigEntry) (beh : Remote)
    (pre : List RunStatus) (rest : List (Except Unit RunStatus))
    (msgs : List Message) (m : Message) (hdom : e.domain = DOMAIN)
    (hass : assistantIdMissing e.assistantId = false)
    (hct : beh.createThread = .ok ()) (hcm : beh.createMessage = .ok ())
    (hcr : beh.createRun = .ok ())
    (hpolls : beh.polls = pre.map Except.ok ++ Except.ok RunStatus.completed :: rest)
    (hpre : ∀ t ∈ pre, isNonTerminal t = true)
    (hlist : beh.listMessages = .ok msgs)
    (hsel : selectAssistant msgs = some m) (hcont : m.content ≠ []) :
    (sendPromptCC (some e) beh).2 =
      some (.ok ⟨String.intercalate "\n" (textParts m)⟩) := by
  have hpoll := pollLoop_completed pre rest hpre
  have hemp : m.content.isEmpty = false := by
    cases hmc : m.content with
    | nil => exact absurd hmc hcont
    | cons a as => simp [List.isEmpty]
  simp [sendPromptCC, hdom, hass, wrapOutcome, sendBodyCC, hct, hcm, hcr,
    hpolls, hpoll, hlist, catchAllToHA, serviceReplyOfMessages, hsel, hemp]

/-- Witness for the amended C1 at a concrete completed run with one
`in_progress` poll and a single-segment assistant reply. -/
theorem claim_C1_amended_completed_reply_witness :
    (sendPromptCC (some ⟨DOMAIN, some "asst"⟩)
      ⟨.ok (), .ok (), .ok (),
        [.ok RunStatus.inProgress, .ok RunStatus.completed],
        .ok [⟨Role.user, [ContentPart.text "q"], 0⟩,
             ⟨Role.assistant,
               [ContentPart.text "hi", ContentPart.imageFile "f1"], 1⟩]⟩).2 =
      some (.ok ⟨String.intercalate "\n" (textParts
        ⟨Role.assistant, [ContentPart.text "hi", ContentPart.imageFile "f1"], 1⟩)⟩) :=
  claim_C1_amended_completed_reply ⟨DOMAIN, some "asst"⟩
    ⟨.ok (), .ok (), .ok (),
      [.ok RunStatus.inProgress, .ok RunStatus.completed],
      .ok [⟨Role.user, [ContentPart.text "q"], 0⟩,
           ⟨Role.assistant, [ContentPart.text "hi", ContentPart.imageFile "f1"], 1⟩]⟩
    [RunStatus.inProgress] []
    [⟨Role.user, [ContentPart.text "q"], 0⟩,
     ⟨Role.assistant, [ContentPart.text "hi", ContentPart.imageFile "f1"], 1⟩]
    ⟨Role.assistant, [ContentPart.text "hi", ContentPart.imageFile "f1"], 1⟩
    rfl (by decide) rfl rfl rfl rfl (by decide) rfl (by decide) (by decide)

/-- C6: for a valid config entry and a provider response, the image service
raises a `HomeAssistantError` whenever the response has no images or its
first image's URL is absent or empty — whatever the other fields hold —
and otherwise returns the first image's descriptor with the inline-data
field (`b64_json`) removed and the remaining fields unchanged. -/
theorem claim_C6_image_url_required (e : ConfigEntry)
    (resp : ImagesResponse) (hdom : e.domain = DOMAIN) :
    ((resp.data = [] ∨
        ∀ img rest, resp.data = img :: rest → hasUrl img.url = false) →
      render_image (some e) (.ok resp) = .error Exc.homeAssistant) ∧
    (∀ img rest, resp.data = img :: rest → hasUrl img.url = true →
      render_image (some e) (.ok resp) = .ok ⟨img.url, img.revisedPrompt⟩) := by
  constructor
  · intro h
    cases hd : resp.data with
    | nil => simp [render_image, hdom, hd]
    | cons img rest =>
      rcases h with h | h
      · rw [hd] at h
        exact absurd h (List.cons_ne_nil img rest)
      · have := h img rest hd
        simp [render_image, hdom, hd, this]
  · intro img rest hd hu
    simp [render_image, hdom, hd, hu]

/-- Witness for C6 at a concrete entry: a response whose first image has a
URL but no `b64_json` is returned minus the inline-data field, and a
response whose first image has `b64_json` and `revised_prompt` but an empty
URL raises. -/
theorem claim_C6_image_url_required_witness :
    render_image (some ⟨DOMAIN, none⟩)
        (.ok ⟨[⟨some "http:u", some "B64", some "rp"⟩]⟩) =
      .ok ⟨some "http:u", some "rp"⟩ ∧
    render_image (some ⟨DOMAIN, none⟩)
        (.ok ⟨[⟨some "", some "B64", some "rp"⟩]⟩) =
      .error Exc.homeAssistant :=
  ⟨(claim_C6_image_url_required ⟨DOMAIN, none⟩
      ⟨[⟨some "http:u", some "B64", some "rp"⟩]⟩ rfl).2
      ⟨some "http:u", some "B64", some "rp"⟩ [] rfl (by decide),
   (claim_C6_image_url_required ⟨DOMAIN, none⟩
      ⟨[⟨some "", some "B64", some "rp"⟩]⟩ rfl).1
      (Or.inr fun img rest h => by
        rw [List.cons.injEq] at h
        rcases h with ⟨h1, _⟩
        rw [← h1]
        decide)⟩

/-- C7: the two registered services produce only the two host error
categories — every failing invocation yields either the generic
`HomeAssistantError` or the validation `ServiceValidationError` — with a
bad config-entry id (unknown entry, or an entry of another integration)
yielding `ServiceValidationError` and a provider-level error during the
body yielding `HomeAssistantError`. -/
theorem claim_C7_two_error_categories :
    (∀ (entry : Option ConfigEntry) (beh : Remote) (err : Exc),
      (sendPromptCC entry beh).2 = some (.error err) →
      err = Exc.homeAssistant ∨ err = Exc.serviceValidation) ∧
    (∀ (entry : Option ConfigEntry) (gen : Except Unit ImagesResponse) (err : Exc),
      render_image entry gen = .error err →
      err = Exc.homeAssistant ∨ err = Exc.serviceValidation) ∧
    (∀ (e : ConfigEntry) (beh : Remote), e.domain ≠ DOMAIN →
      (sendPromptCC (some e) beh).2 = some (.error Exc.serviceValidation) ∧
      render_image (some e) (.ok ⟨[]⟩) = .error Exc.serviceValidation) ∧
    (∀ (e : ConfigEntry) (beh : Remote), e.domain = DOMAIN →
      assistantIdMissing e.assistantId = false → beh.createThread = .error () →
      (sendPromptCC (some e) beh).2 = some (.error Exc.homeAssistant)) ∧
    (∀ (e : ConfigEntry), e.domain = DOMAIN →
      render_image (some e) (.error ()) = .error Exc.homeAssistant) := by
  refine ⟨?_, ?_, ?_, ?_, ?_⟩
  · intro entry beh err h
    match entry with
    | none =>
      simp [sendPromptCC] at h
      exact Or.inr h.symm
    | some e =>
      by_cases hdom : e.domain = DOMAIN
      · cases hass : assistantIdMissing e.assistantId with
        | true =>
          simp [sendPromptCC, hdom, hass] at h
          exact Or.inl h.symm
        | false =>
          simp only [sendPromptCC, hdom] at h
          rw [if_neg (by simp), if_neg (by simp [hass])] at h
          rcases hr : (sendBodyCC beh).2 with _ | r
          · simp [wrapOutcome, hr] at h
          · rcases r with er | v
            · simp [wrapOutcome, hr, catchAllToHA] at h
              exact Or.inl h.symm
            · simp [wrapOutcome, hr, catchAllToHA] at h
      · simp [sendPromptCC, hdom] at h
        exact Or.inr h.symm
  · intro entry gen err h
    match entry with
    | none =>
      simp [render_image] at h
      exact Or.inr h.symm
    | some e =>
      by_cases hdom : e.domain = DOMAIN
      · match gen with
        | .error _ =>
          simp [render_image, hdom] at h
          exact Or.inl h.symm
        | .ok resp =>
          match hd : resp.data with
          | [] =>
            simp [render_image, hdom, hd] at h
            exact Or.inl h.symm
          | img :: rest =>
            cases hu : hasUrl img.url with
            | true => simp [render_image, hdom, hd, hu] at h
            | false =>
              simp [render_image, hdom, hd, hu] at h
              exact Or.inl h.symm
      · simp [render_image, hdom] at h
        exact Or.inr h.symm
  · intro e beh hdom
    constructor <;> simp [sendPromptCC, render_image, hdom]
  · intro e beh hdom hass hct
    simp [sendPromptCC, hdom, hass, wrapOutcome, sendBodyCC, hct, catchAllToHA]
  · intro e hdom
    simp [render_image, hdom]

/-- Witness for C7 at concrete inputs: a wrong-domain entry yields the
validation error, and a provider failure at thread creation yields the
generic host error. -/
theorem claim_C7_two_error_categories_witness :
    ((sendPromptCC (some ⟨"other_domain", some "asst"⟩)
        ⟨.ok (), .ok (), .ok (), [], .ok []⟩).2 =
      some (.error Exc.serviceValidation) ∧
      render_image (some ⟨"other_domain", some "asst"⟩) (.ok ⟨[]⟩) =
        .error Exc.serviceValidation) ∧
    (sendPromptCC (some ⟨DOMAIN, some "asst"⟩)
        ⟨.error (), .ok (), .ok (), [], .ok []⟩).2 =
      some (.error Exc.homeAssistant) ∧
    (Exc.serviceValidation = Exc.homeAssistant ∨
      Exc.serviceValidation = Exc.serviceValidation) :=
  ⟨claim_C7_two_error_categories.2.2.1 ⟨"other_domain", some "asst"⟩
      ⟨.ok (), .ok (), .ok (), [], .ok []⟩ (by decide),
   claim_C7_two_error_categories.2.2.2.1 ⟨DOMAIN, some "asst"⟩
      ⟨.error (), .ok (), .ok (), [], .ok []⟩ rfl (by decide) rfl,
   claim_C7_two_error_categories.1 (some ⟨"x", none⟩)
      ⟨.ok (), .ok (), .ok (), [], .ok []⟩ Exc.serviceValidation rfl⟩

lemma catch_eq_on_serviceReply (msgs : List Message) :
    catchAllToHA (serviceReplyOfMessages msgs) =
      catchOpenAIToHA (serviceReplyOfMessages msgs) := by
  unfold serviceReplyOfMessages
  cases selectAssistant msgs with
  | none => rfl
  | some m =>
    cases hc : m.content.isEmpty <;> simp [hc, catchAllToHA, catchOpenAIToHA]

/-- C8 counterexample: on the same completed-run message list whose latest
assistant message has text segments `"a"` and `"b"`, the service variants
reply `"a\nb"` while the entity variant adds `"ab"`: the reply texts
differ, so the three variants are not equivalent as claimed. -/
theorem claim_C8_counterexample :
    serviceReplyOfMessages
        [⟨Role.assistant, [ContentPart.text "a", ContentPart.text "b"], 0⟩] =
      .ok ⟨"a\nb"⟩ ∧
    entityReplyOfMessages
        [⟨Role.assistant, [ContentPart.text "a", ContentPart.text "b"], 0⟩] =
      some "ab" ∧
    ("a\nb" : String) ≠ "ab" :=
  ⟨rfl, rfl, by decide⟩

/-- C8 amended: given the same completed-run message list, all three
variants select the same assistant message (the shared `selectAssistant`);
the two service variants are fully equivalent (same trace and result);
the entity variant joins the selected message's text segments without a
separator where the services use `"\n"`, so its reply text coincides with
theirs exactly when the message has at most one text segment. -/
theorem claim_C8_amended_variants_agree :
    (∀ (msgs : List Message) (m : Message), selectAssistant msgs = some m →
      m.content ≠ [] →
      serviceReplyOfMessages msgs = .ok ⟨String.intercalate "\n" (textParts m)⟩ ∧
      entityReplyOfMessages msgs = some (String.join (textParts m))) ∧
    (∀ (e : ConfigEntry) (beh : Remote) (rest : List (Except Unit RunStatus)),
      e.domain = DOMAIN → assistantIdMissing e.assistantId = false →
      beh.createThread = .ok () → beh.createMessage = .ok () →
      beh.createRun = .ok () →
      beh.polls = Except.ok RunStatus.completed :: rest →
      sendPromptCC (some e) beh = sendPromptSrc (some e) beh) ∧
    (∀ l : List String, l.length ≤ 1 →
      String.intercalate "\n" l = String.join l) := by
  refine ⟨?_, ?_, ?_⟩
  · intro msgs m hsel hcont
    have hemp : m.content.isEmpty = false := by
      cases hmc : m.content with
      | nil => exact absurd hmc hcont
      | cons a as => simp [List.isEmpty]
    exact ⟨by simp [serviceReplyOfMessages, hsel, hemp],
      by simp [entityReplyOfMessages, hsel]⟩
  · intro e beh rest hdom hass hct hcm hcr hpolls
    have hp : pollLoop (Except.ok RunStatus.completed :: rest) =
        ([Ev.retrieveRun], PollResult.completed) := by
      simpa using pollLoop_completed [] rest (by simp)
    have hps : pollLoopSrc (Except.ok RunStatus.completed :: rest) =
        ([Ev.retrieveRun], PollResult.completed) := by
      simp [pollLoopSrc]
    cases hlm : beh.listMessages with
    | error u =>
      simp [sendPromptCC, sendPromptSrc, hdom, hass, wrapOutcome, sendBodyCC,
        sendBodySrc, hct, hcm, hcr, hpolls, hp, hps, hlm, catchAllToHA,
        catchOpenAIToHA]
    | ok msgs =>
      simp [sendPromptCC, sendPromptSrc, hdom, hass, wrapOutcome, sendBodyCC,
        sendBodySrc, hct, hcm, hcr, hpolls, hp, hps, hlm,
        catch_eq_on_serviceReply]
  · intro l hl
    match l with
    | [] => rfl
    | [a] => simp [String.intercalate, String.join, String.intercalate.go]
    | a :: b :: t => simp at hl

/-- Witness for the amended C8 at concrete inputs: a single-text-segment
assistant message, for which all three variants produce the reply `"hi"`. -/
theorem claim_C8_amended_variants_agree_witness :
    (serviceReplyOfMessages [⟨Role.assistant, [ContentPart.text "hi"], 0⟩] =
        .ok ⟨String.intercalate "\n"
          (textParts ⟨Role.assistant, [ContentPart.text "hi"], 0⟩)⟩ ∧
      entityReplyOfMessages [⟨Role.assistant, [ContentPart.text "hi"], 0⟩] =
        some (String.join
          (textParts ⟨Role.assistant, [ContentPart.text "hi"], 0⟩))) ∧
    sendPromptCC (some ⟨DOMAIN, some "asst"⟩)
        ⟨.ok (), .ok (), .ok (), [.ok RunStatus.completed],
          .ok [⟨Role.assistant, [ContentPart.text "hi"], 0⟩]⟩ =
      sendPromptSrc (some ⟨DOMAIN, some "asst"⟩)
        ⟨.ok (), .ok (), .ok (), [.ok RunStatus.completed],
          .ok [⟨Role.assistant, [ContentPart.text "hi"], 0⟩]⟩ ∧
    String.intercalate "\n" ["hi"] = String.join ["hi"] :=
  ⟨claim_C8_amended_variants_agree.1
      [⟨Role.assistant, [ContentPart.text "hi"], 0⟩]
      ⟨Role.assistant, [ContentPart.text "hi"], 0⟩ rfl (by decide),
   claim_C8_amended_variants_agree.2.1 ⟨DOMAIN, some "asst"⟩
      ⟨.ok (), .ok (), .ok (), [.ok RunStatus.completed],
        .ok [⟨Role.assistant, [ContentPart.text "hi"], 0⟩]⟩ []
      rfl (by decide) rfl rfl rfl rfl,
   claim_C8_amended_variants_agree.2.2 ["hi"] (by decide)⟩

lemma postParams_roles (beh : Remote) :
    ∀ (ps : List Param) (evs : List Ev) (l : List Posted),
      postParams beh ps = (evs, Except.ok l) → ∀ pm ∈ l, pm.role = Role.user := by
  intro ps
  induction ps with
  | nil =>
    intro evs l h pm hpm
    simp [postParams] at h
    rw [h.2] at hpm
    simp at hpm
  | cons p rest ih =>
    intro evs l h pm hpm
    cases hc : contentField p with
    | none => simp [postParams, hc] at h
    | some c =>
      cases hcm : beh.createMessage with
      | error u => simp [postParams, hc, hcm] at h
      | ok u =>
        simp only [postParams, hc, hcm] at h
        cases hr : (postParams beh rest).2 with
        | error e' => simp [hr, Except.map] at h
        | ok l' =>
          simp only [hr, Except.map, Prod.mk.injEq, Except.ok.injEq] at h
          rw [← h.2] at hpm
          rcases List.mem_cons.1 hpm with h1 | h1
          · rw [h1]
          · exact ih (postParams beh rest).1 l'
              (by rw [← hr]) pm h1

/-- C9 counterexample: a chat log consisting of one tool-result entry.  Its
converted param is a `FunctionCallOutput` without a `content` key, so the
posting loop raises `KeyError` at the `msg["content"]` lookup and posts
nothing — the entry is not posted to the thread with role `"user"` as the
claim states. -/
theorem claim_C9_counterexample :
    postParams ⟨.ok (), .ok (), .ok (), [], .ok []⟩
        ([Content.toolResultC "call1" "7"].flatMap _convert_content_to_param) =
      ([], .error Exc.keyErr) :=
  rfl

/-- C9 amended: the role computed by `_convert_content_to_param` is indeed
discarded at posting time — every message the entity variant successfully
posts to the remote thread has role `"user"`, whatever the chat-log role
was — but this covers only message-type params: a tool-call or tool-result
param has no `content` key, so posting it raises `KeyError` instead. -/
theorem claim_C9_amended_posting_role (beh : Remote) :
    (∀ (chatLog : List Content) (evs : List Ev) (l : List Posted),
      postParams beh (chatLog.flatMap _convert_content_to_param) =
        (evs, Except.ok l) →
      ∀ pm ∈ l, pm.role = Role.user) ∧
    (∀ (cid out : String) (rest : List Param),
      postParams beh (Param.functionCallOutput cid out :: rest) =
        ([], .error Exc.keyErr)) ∧
    (∀ (nm args cid : String) (rest : List Param),
      postParams beh (Param.functionCall nm args cid :: rest) =
        ([], .error Exc.keyErr)) := by
  refine ⟨?_, ?_, ?_⟩
  · intro chatLog evs l h
    exact postParams_roles beh _ evs l h
  · intro cid out rest
    simp [postParams, contentField]
  · intro nm args cid rest
    simp [postParams, contentField]

/-- Witness for the amended C9: a chat log with a system turn and an
assistant turn posts both with role `"user"` (the computed `developer` and
`assistant` roles are discarded), and a tool-result param raises
`KeyError`. -/
theorem claim_C9_amended_posting_role_witness :
    (∀ pm ∈ [Posted.mk Role.user "be brief", Posted.mk Role.user "ok"],
      pm.role = Role.user) ∧
    postParams ⟨.ok (), .ok (), .ok (), [], .ok []⟩
        (Param.functionCallOutput "call1" "7" :: []) =
      ([], .error Exc.keyErr) :=
  ⟨(claim_C9_amended_posting_role ⟨.ok (), .ok (), .ok (), [], .ok []⟩).1
      [Content.systemC "be brief", Content.assistantC (some "ok") []]
      [Ev.createMessage, Ev.createMessage]
      [Posted.mk Role.user "be brief", Posted.mk Role.user "ok"] rfl,
   (claim_C9_amended_posting_role ⟨.ok (), .ok (), .ok (), [], .ok []⟩).2.1
      "call1" "7" []⟩

/-- C10: in the `src/__init__.py` variant (whose module never imports
`asyncio`), any invocation that reaches the poll loop and gets a
non-terminal status from the first poll raises `NameError` at
`asyncio.sleep(1)`, and the surrounding `except openai.OpenAIError`
handler does not convert it to the host's `HomeAssistantError`. -/
theorem claim_C10_missing_asyncio (e : ConfigEntry) (beh : Remote)
    (t : RunStatus) (rest : List (Except Unit RunStatus))
    (hdom : e.domain = DOMAIN)
    (hass : assistantIdMissing e.assistantId = false)
    (hct : beh.createThread = .ok ()) (hcm : beh.createMessage = .ok ())
    (hcr : beh.createRun = .ok ())
    (hpolls : beh.polls = Except.ok t :: rest)
    (ht : isNonTerminal t = true) :
    (sendPromptSrc (some e) beh).2 = some (.error Exc.nameErr) ∧
    Exc.nameErr ≠ Exc.homeAssistant := by
  have hp := pollLoopSrc_nameErr t rest ht
  refine ⟨?_, by decide⟩
  simp [sendPromptSrc, hdom, hass, wrapOutcome, sendBodySrc, hct, hcm, hcr,
    hpolls, hp, catchOpenAIToHA]

/-- Witness for C10: a first poll answering `"queued"`. -/
theorem claim_C10_missing_asyncio_witness :
    (sendPromptSrc (some ⟨DOMAIN, some "asst"⟩)
      ⟨.ok (), .ok (), .ok (), [.ok RunStatus.queued], .ok []⟩).2 =
      some (.error Exc.nameErr) ∧
    Exc.nameErr ≠ Exc.homeAssistant :=
  claim_C10_missing_asyncio ⟨DOMAIN, some "asst"⟩
    ⟨.ok (), .ok (), .ok (), [.ok RunStatus.queued], .ok []⟩
    RunStatus.queued [] rfl (by decide) rfl rfl rfl rfl (by decide)

end OpenAIConv
